import Mathlib

/-!
Verification of the YouTube-Video-Summarizer repository.

The repository has three source files:
* `model_add.py` — `LlamaCPPInvocationLayer`, a thin adapter around the
  llama_cpp runtime (`__call__` sends one generation request and extracts
  `response.get('choices', [{}])[0].get('text', '')`);
* `summary.py` — the batch script: `youtube_to_audio`, `build_pipeline`,
  and `main` (download, build a two-node Whisper→PromptNode pipeline, run
  it, and print `results[0].split("\n\n[INST]")[0]`);
* `youtube_summarizer.py` — the Streamlit UI: `download_audio`,
  `load_model`, `build_prompt_node`, `summarize_audio`, and `main`.

Python strings are embedded as `List Char`; Python's dynamically typed
values as the inductive `PyVal`; a raised exception as `Except.error` with
a `PyErr` tag.  Third-party behaviour (pytube resolution, the Haystack
pipeline runner, the llama_cpp runtime) is out of scope for the repository
and is modelled from the specification where a claim needs it; each such
definition carries a doc comment saying so.
-/

namespace YTSum

/-- Exception tags for the Python exceptions this code can raise or catch. -/
inductive PyErr where
  | valueError : List Char → PyErr
  | indexError : PyErr
  | keyError : PyErr
  | attributeError : PyErr
  | typeError : PyErr
  | fileNotFound : PyErr
  | runtimeError : List Char → PyErr
deriving DecidableEq, Repr

/-- A dynamically typed Python value, as far as this program manipulates
them: strings, lists, string-keyed dicts, `None`, and integers. -/
inductive PyVal where
  | str : List Char → PyVal
  | list : List PyVal → PyVal
  | dict : List (List Char × PyVal) → PyVal
  | none : PyVal
  | int : Int → PyVal

/-- Association-list lookup for the `dict` embedding (first binding wins,
like a Python dict read). -/
def lookupKey (k : List Char) : List (List Char × PyVal) → Option PyVal
  | [] => Option.none
  | (k', v) :: rest => if k' = k then some v else lookupKey k rest

/-- Python truthiness for the values this program tests with `if`. -/
def truthy : PyVal → Bool
  | .str s => !s.isEmpty
  | .list xs => !xs.isEmpty
  | .dict kvs => !kvs.isEmpty
  | .none => false
  | .int n => n != 0

/-- `obj.get(key, default)`: total on dicts, an `AttributeError` on any
other receiver. -/
def pyGet (v : PyVal) (k : List Char) (dflt : PyVal) : Except PyErr PyVal :=
  match v with
  | .dict kvs => .ok ((lookupKey k kvs).getD dflt)
  | _ => .error .attributeError

/-- `obj[key]` for a string key: `KeyError` when the key is absent,
`TypeError` when the receiver is not a dict. -/
def pySubscript (v : PyVal) (k : List Char) : Except PyErr PyVal :=
  match v with
  | .dict kvs =>
    match lookupKey k kvs with
    | some x => .ok x
    | Option.none => .error .keyError
  | _ => .error .typeError

/-- `obj[i]` for a natural index: lists yield the element, strings yield a
one-character string, anything else a `TypeError`; out of range is an
`IndexError`. -/
def pyIndex (v : PyVal) (i : Nat) : Except PyErr PyVal :=
  match v with
  | .list xs =>
    match xs[i]? with
    | some x => .ok x
    | Option.none => .error .indexError
  | .str s =>
    match s[i]? with
    | some c => .ok (.str [c])
    | Option.none => .error .indexError
  | _ => .error .typeError

/-- Index (from the start) of the leftmost occurrence of `sep` as a
contiguous substring of `l`, if any. -/
def findSub (sep : List Char) : List Char → Option Nat
  | [] => if sep = [] then some 0 else Option.none
  | c :: rest =>
    if sep <+: c :: rest then some 0
    else (findSub sep rest).map (· + 1)

/-- Fuel-driven worker for `pySplit`: cut at the leftmost occurrence of
`sep`, then continue after it.  `l.length` units of fuel always suffice
for a nonempty `sep` because every cut consumes at least `sep.length`
characters. -/
def pySplitGo (sep : List Char) : Nat → List Char → List (List Char)
  | 0, l => [l]
  | fuel + 1, l =>
    match findSub sep l with
    | Option.none => [l]
    | some i => l.take i :: pySplitGo sep fuel (l.drop (i + sep.length))

/-- Python's `str.split(sep)` for a nonempty separator: the maximal list of
chunks obtained by removing every non-overlapping, leftmost-first
occurrence of `sep`.  (Python raises on an empty separator; the program
only ever splits on the fixed nonempty marker.) -/
def pySplit (sep l : List Char) : List (List Char) :=
  if sep = [] then [l] else pySplitGo sep l.length l

/-- `obj.split(sep)`: defined on strings, an `AttributeError` on any other
receiver. -/
def pySplitVal (v : PyVal) (sep : List Char) : Except PyErr PyVal :=
  match v with
  | .str s => .ok (.list ((pySplit sep s).map .str))
  | _ => .error .attributeError

/-! ## Shared constants of the two entry points -/

/-- `SUMMARY_PROMPT = "deepset/summarization"` (summary.py); the UI's
`build_prompt_node` hardcodes the same identifier. -/
def SUMMARY_PROMPT : List Char := "deepset/summarization".data

/-- `MODEL_PATH` constant of summary.py. -/
def MODEL_PATH : List Char := "llama-2-7b-32k-instruct.Q4_K_S.gguf".data

/-- `MODEL_MAX_LENGTH = 512` (summary.py). -/
def MODEL_MAX_LENGTH : Nat := 512

/-- The literal marker both entry points split the first result on. -/
def instMarker : List Char := "\n\n[INST]".data

/-- Default `abr` argument of `youtube_to_audio`. -/
def defaultAbr : List Char := "160kbps".data

/-- The `"results"` key of the pipeline's output dict. -/
def resultsKey : List Char := "results".data

/-- The `'choices'` key of the llama_cpp response dict. -/
def choicesKey : List Char := "choices".data

/-- The `'text'` key of a llama_cpp response choice. -/
def textKey : List Char := "text".data

/-- The shared summary-extraction expression of both entry points:
`x.split("\n\n[INST]")[0]` — split the value on the marker and index
element 0 of the resulting list. -/
def extractSummary (v : PyVal) : Except PyErr PyVal := do
  let parts ← pySplitVal v instMarker
  pyIndex parts 0

/-! ## Audio Fetcher -/

/-- One selectable stream of a resolved video: its audio bitrate tag, the
pytube `only_audio` flag, and the local filename a download would produce. -/
structure AudioStream where
  abr : List Char
  only_audio : Bool
  path : List Char
deriving DecidableEq, Repr

/-- Error message `f"No audio stream with {abr} available."`. -/
def noStreamMsg (abr : List Char) : List Char :=
  "No audio stream with ".data ++ abr ++ " available.".data

/-- `youtube_to_audio(url, abr)` of summary.py.  `YouTube(url)` and its
stream listing are pytube (out of scope), so resolution is passed in: an
exception from the library, or the list of streams of the video.  The
function keeps the streams whose `abr` matches, takes the last
(`.last()` is `None` on an empty query), raises
`ValueError(f"No audio stream with {abr} available.")` when there is none,
and otherwise downloads it, returning the file path. -/
def youtube_to_audio (resolve : Except PyErr (List AudioStream))
    (abr : List Char) : Except PyErr (List Char) := do
  let streams ← resolve
  match (streams.filter (fun s => s.abr = abr)).getLast? with
  | Option.none => .error (.valueError (noStreamMsg abr))
  | some stream => .ok stream.path

/-! ## Model Invocation Adapter (model_add.py) -/

/-- `LlamaCPPInvocationLayer`: holds the loaded `Llama` model and the
configured `max_length`.  The runtime itself is llama_cpp (out of scope):
it is embedded as the function the constructor's `Llama(...)` call
returned — prompt and `max_tokens` in, response dict out, or a raised
exception. -/
structure LlamaCPPInvocationLayer where
  model : List Char → Nat → Except PyErr PyVal
  max_length : Nat

/-- `LlamaCPPInvocationLayer.__call__`: one generation request
`self.model(prompt=prompt, max_tokens=self.max_length)`, then
`response.get('choices', [{}])[0].get('text', '')`.  Besides the result
(or the uncaught exception), the returned pair records the list of
generation requests the invocation issued, so that the absence of retries
is visible in the result. -/
def LlamaCPPInvocationLayer.call (L : LlamaCPPInvocationLayer)
    (prompt : List Char) : Except PyErr PyVal × List (List Char × Nat) :=
  (match L.model prompt L.max_length with
   | .error e => .error e
   | .ok response => do
      let choices ← pyGet response choicesKey (.list [.dict []])
      let c0 ← pyIndex choices 0
      pyGet c0 textKey (.str []),
   [(prompt, L.max_length)])

/-- Modelled from the spec: the llama_cpp runtime is out of scope; per
§4.2 each call "performs one bounded-length generation request", so a
response to a request with `max_tokens = n` carries generated text of
length at most `n` — every `'text'` field of a `'choices'` entry of the
response dict has length at most `n`. -/
def RespBounded (r : PyVal) (n : Nat) : Prop :=
  ∀ (kvs : List (List Char × PyVal)) (cs : List PyVal)
    (ckvs : List (List Char × PyVal)) (s : List Char),
    r = .dict kvs →
    lookupKey choicesKey kvs = some (.list cs) →
    .dict ckvs ∈ cs →
    lookupKey textKey ckvs = some (.str s) →
    s.length ≤ n

/-! ## Summarization Pipeline structure -/

/-- `ModelConfig` of the spec's data model: the arguments `build_pipeline`
and `load_model` hand to `PromptModel`. -/
structure ModelConfig where
  model_path : List Char
  max_length : Nat
  use_gpu : Bool

/-- A `PromptNode`: the wrapped model, its default prompt template and the
GPU flag. -/
structure PromptNodeCfg where
  model : ModelConfig
  template : List Char
  use_gpu : Bool

/-- A pipeline component: the Whisper transcriber or a prompt node. -/
inductive Component where
  | whisper : Component
  | promptNode : PromptNodeCfg → Component

/-- One `add_node(component=..., name=..., inputs=[...])` entry. -/
structure PipeNode where
  component : Component
  name : List Char
  inputs : List (List Char)

/-- A Haystack `Pipeline` as this repository builds one: the ordered list
of added nodes. -/
structure HPipeline where
  nodes : List PipeNode

/-- `pipeline.add_node(...)` appends a node. -/
def HPipeline.add_node (p : HPipeline) (n : PipeNode) : HPipeline :=
  ⟨p.nodes ++ [n]⟩

/-- `build_pipeline(model_path, max_length, use_gpu)` of summary.py:
a Whisper transcriber fed from the `File` root, then a `PromptNode` over
`PromptModel(model_path, LlamaCPPInvocationLayer, use_gpu, max_length)`
with the `SUMMARY_PROMPT` template, fed from `whisper`. -/
def build_pipeline (model_path : List Char) (max_length : Nat)
    (use_gpu : Bool := false) : HPipeline :=
  let model : ModelConfig := ⟨model_path, max_length, use_gpu⟩
  let prompt_node : PromptNodeCfg := ⟨model, SUMMARY_PROMPT, use_gpu⟩
  ((HPipeline.mk []).add_node
      ⟨.whisper, "whisper".data, ["File".data]⟩).add_node
      ⟨.promptNode prompt_node, "prompt".data, ["whisper".data]⟩

/-- One node execution in a pipeline run: the node's name, the text it
consumed, and the text it produced. -/
structure ExecEv where
  name : List Char
  input : List Char
  output : List Char

/-- Modelled from the spec: Haystack's `Pipeline.run` is a third-party
orchestration framework absent from src/.  Per §4.3/§5 of the spec the two
declared nodes run synchronously in a single pass in dependency order,
each node consuming the output of the node named in its `inputs` (the
`File` root denoting the submitted file).  `tr` is the transcription
engine, `sm` the generation step of a prompt node (model config, template,
input text).  The run returns the node executions in the order they
happened. -/
def HPipeline.run (p : HPipeline) (tr : List Char → List Char)
    (sm : ModelConfig → List Char → List Char → List Char)
    (file : List Char) : List ExecEv :=
  (p.nodes.foldl
    (fun (acc : List ExecEv × List (List Char × List Char)) n =>
      let inp : List Char :=
        match n.inputs.head? with
        | some nm =>
          if nm = "File".data then file
          else ((acc.2.find? (fun e => e.1 = nm)).map (·.2)).getD []
        | Option.none => []
      let out : List Char :=
        match n.component with
        | .whisper => tr inp
        | .promptNode pn => sm pn.model pn.template inp
      (acc.1 ++ [⟨n.name, inp, out⟩], acc.2 ++ [(n.name, out)]))
    ([], [])).1

/-! ## Orchestrators -/

/-- User-visible outputs of a run: `print` in the batch script and the
Streamlit widgets of the UI (`st.caption` is the elapsed-time report at
the end of the summary column). -/
inductive Ev where
  | printVal : PyVal → Ev
  | stInfo : Ev
  | stError : List Char → Ev
  | stVideo : Ev
  | stHeader : Ev
  | stSuccess : PyVal → Ev
  | stWarning : Ev
  | stWrite : PyVal → Ev
  | stCaption : Ev

/-- Message `f"Failed to fetch audio: {e}"` of the batch `main`. -/
def fetchFailMsg (e : PyErr) : List Char :=
  "Failed to fetch audio: ".data ++
    (match e with
     | .valueError m => m
     | .runtimeError m => m
     | .indexError => "IndexError".data
     | .keyError => "KeyError".data
     | .attributeError => "AttributeError".data
     | .typeError => "TypeError".data
     | .fileNotFound => "FileNotFoundError".data)

/-- `"No results produced by pipeline."` of the batch `main`. -/
def noResultsMsg : List Char := "No results produced by pipeline.".data

/-- The external effects one batch run depends on, all of them third-party
behaviour: `resolve` is pytube's resolution of the hardcoded URL into the
video's streams (or a raised exception); `modelLoad` is the llama_cpp
weight load that `build_pipeline`'s `PromptModel(...)` performs at
construction (spec §4.2: the adapter loads weights at construction);
`runOut` is the outcome of `pipeline.run(file_paths=[file_path])`, the
output dict or a raised exception. -/
structure BatchWorld where
  resolve : Except PyErr (List AudioStream)
  modelLoad : Except PyErr Unit
  runOut : Except PyErr PyVal

/-- `main(url)` of summary.py.  `youtube_to_audio` is guarded by
`try/except` (print the message and return); `build_pipeline` and
`pipeline.run` are not guarded, so their exceptions leave `main`
(the `Except.error` result).  On an output dict, `results =
output.get("results", [])`; a truthy `results` is printed whole and then
`results[0].split("\n\n[INST]")[0]` is printed, otherwise the
no-results message is printed. -/
def batchMain (w : BatchWorld) : Except PyErr (List Ev) :=
  match youtube_to_audio w.resolve defaultAbr with
  | .error e => .ok [.printVal (.str (fetchFailMsg e))]
  | .ok _file_path =>
    let _pipeline := build_pipeline MODEL_PATH MODEL_MAX_LENGTH
    match w.modelLoad with
    | .error e => .error e
    | .ok _ =>
      match w.runOut with
      | .error e => .error e
      | .ok output => do
        let results ← pyGet output resultsKey (.list [])
        if truthy results then do
          let r0 ← pyIndex results 0
          let s0 ← extractSummary r0
          pure [.printVal results, .printVal s0]
        else
          pure [.printVal (.str noResultsMsg)]

/-- Message `f"Error downloading YouTube audio: {e}"` of the UI. -/
def dlErrMsg (e : PyErr) : List Char :=
  "Error downloading YouTube audio: ".data ++
    (match e with
     | .valueError m => m
     | .runtimeError m => m
     | _ => "error".data)

/-- Message `f"Model not found at {model_path}"` of the UI. -/
def modelNotFoundMsg (model_path : List Char) : List Char :=
  "Model not found at ".data ++ model_path

/-- `download_audio(url)` of youtube_summarizer.py: inside one
`try/except`, resolve the URL, take the first `only_audio` stream and
download it with `filename_prefix="audio_"`.  Any exception — including
the `AttributeError` from calling `.download` on `None` when no audio-only
stream exists — is caught, shown with `st.error`, and `None` is returned.
Returns the optional path and the widget events emitted. -/
def download_audio (resolve : Except PyErr (List AudioStream)) :
    Option (List Char) × List Ev :=
  match resolve with
  | .error e => (Option.none, [.stError (dlErrMsg e)])
  | .ok streams =>
    match (streams.filter (fun s => s.only_audio)).head? with
    | Option.none => (Option.none, [.stError (dlErrMsg .attributeError)])
    | some stream => (some ("audio_".data ++ stream.path), [])

/-- `load_model(model_path)` of youtube_summarizer.py: when the file does
not exist, `st.error(f"Model not found at {model_path}")` and `None`;
otherwise the `PromptModel` configuration (`use_gpu=False`,
`max_length=512`). -/
def load_model (model_exists : Bool) (model_path : List Char) :
    Option ModelConfig × List Ev :=
  if model_exists then (some ⟨model_path, 512, false⟩, [])
  else (Option.none, [.stError (modelNotFoundMsg model_path)])

/-- `build_prompt_node(model)` of youtube_summarizer.py. -/
def build_prompt_node (model : ModelConfig) : PromptNodeCfg :=
  ⟨model, "deepset/summarization".data, false⟩

/-- `summarize_audio(file_path, prompt_node)` of youtube_summarizer.py:
build the same two-node pipeline as the batch script (Whisper from `File`,
the given prompt node from `whisper`) and run it.  `tr`/`sm` stand for the
external transcription and generation engines, as in `HPipeline.run`. -/
def summarize_audio (tr : List Char → List Char)
    (sm : ModelConfig → List Char → List Char → List Char)
    (file_path : List Char) (prompt_node : PromptNodeCfg) : List ExecEv :=
  (((HPipeline.mk []).add_node
      ⟨.whisper, "whisper".data, ["File".data]⟩).add_node
      ⟨.promptNode prompt_node, "prompt".data, ["whisper".data]⟩).run
    tr sm file_path

/-- The summary column of the UI `main`:
`try: st.success(result["results"][0].split("\n\n[INST]")[0])
except: st.warning(...); st.write(result)`. -/
def uiSummaryEvs (result : PyVal) : List Ev :=
  match (do
    let rs ← pySubscript result resultsKey
    let r0 ← pyIndex rs 0
    extractSummary r0 : Except PyErr PyVal) with
  | .ok s0 => [.stSuccess s0]
  | .error _ => [.stWarning, .stWrite result]

/-- The external effects one UI submission depends on: pytube resolution
of the entered URL, existence of the entered model file, and the outcome
of `summarize_audio`'s `pipe.run` (dict or raised exception). -/
structure UIWorld where
  resolve : Except PyErr (List AudioStream)
  modelExists : Bool
  modelPath : List Char
  runOut : Except PyErr PyVal

/-- The submit handler of `main()` in youtube_summarizer.py (the body of
`if st.button("Submit") and youtube_url:`): `st.info`, then
`download_audio` (return on `None` or falsy path), `load_model` (return on
`None`), `build_prompt_node`, `summarize_audio` — whose raised exception,
if any, leaves `main` uncaught — then the two columns: the embedded video,
the summary header, the guarded extraction, and the elapsed-time caption.
`time.time()` is sampled before the download and after the pipeline; the
`st.caption` event is the report of that elapsed time. -/
def uiMain (w : UIWorld) : Except PyErr (List Ev) :=
  let ev0 : List Ev := [.stInfo]
  match download_audio w.resolve with
  | (Option.none, evs) => .ok (ev0 ++ evs)
  | (some file_path, evs) =>
    if file_path = [] then .ok (ev0 ++ evs)
    else
      match load_model w.modelExists w.modelPath with
      | (Option.none, evs2) => .ok (ev0 ++ evs ++ evs2)
      | (some model, evs2) =>
        let _prompt_node := build_prompt_node model
        match w.runOut with
        | .error e => .error e
        | .ok result =>
          .ok (ev0 ++ evs ++ evs2 ++ [.stVideo, .stHeader] ++
               uiSummaryEvs result ++ [.stCaption])

/-! ## Properties of substring search and `pySplit` -/

theorem findSub_some_starts (sep : List Char) :
    ∀ (l : List Char) (i : Nat), findSub sep l = some i → sep <+: l.drop i := by
  intro l
  induction l with
  | nil =>
    intro i h
    simp only [findSub] at h
    split at h
    · cases h; simp_all
    · cases h
  | cons c rest ih =>
    intro i h
    simp only [findSub] at h
    split at h
    · cases h
      simpa using ‹sep <+: c :: rest›
    · cases hf : findSub sep rest with
      | none => rw [hf] at h; cases h
      | some j =>
        rw [hf] at h
        simp only [Option.map_some'] at h
        cases h
        simpa using ih j hf

theorem findSub_some_min (sep : List Char) :
    ∀ (l : List Char) (i : Nat), findSub sep l = some i →
      ∀ j, j < i → ¬ sep <+: l.drop j := by
  intro l
  induction l with
  | nil =>
    intro i h j hj
    simp only [findSub] at h
    split at h
    · cases h; omega
    · cases h
  | cons c rest ih =>
    intro i h j hj
    simp only [findSub] at h
    split at h
    · cases h; omega
    · cases hf : findSub sep rest with
      | none => rw [hf] at h; cases h
      | some k =>
        rw [hf] at h
        simp only [Option.map_some'] at h
        cases h
        cases j with
        | zero => simpa using ‹¬ sep <+: c :: rest›
        | succ j' =>
          have := ih k hf j' (by omega)
          simpa using this

theorem findSub_none_no_occ (sep : List Char) (hsep : sep ≠ []) :
    ∀ (l : List Char), findSub sep l = Option.none →
      ∀ j, ¬ sep <+: l.drop j := by
  intro l
  induction l with
  | nil =>
    intro _ j hp
    rw [List.drop_nil] at hp
    exact hsep (List.prefix_nil.mp hp)
  | cons c rest ih =>
    intro h j hp
    simp only [findSub] at h
    split at h
    · cases h
    · cases hf : findSub sep rest with
      | none =>
        cases j with
        | zero => exact ‹¬ sep <+: c :: rest› (by simpa using hp)
        | succ j' => exact ih hf j' (by simpa using hp)
      | some k => rw [hf] at h; cases h

theorem findSub_some_lt_length (sep : List Char) (hsep : sep ≠ [])
    (l : List Char) (i : Nat) (h : findSub sep l = some i) : i < l.length := by
  have hp := findSub_some_starts sep l i h
  by_contra hle
  push_neg at hle
  rw [List.drop_eq_nil_iff.mpr hle] at hp
  exact hsep (List.prefix_nil.mp hp)

theorem occ_of_isInfix (sep l : List Char) (h : sep <:+: l) :
    ∃ i, sep <+: l.drop i := by
  obtain ⟨s, t, hst⟩ := h
  refine ⟨s.length, t, ?_⟩
  rw [← hst, List.append_assoc, List.drop_left]

theorem isInfix_of_occ (sep l : List Char) (i : Nat)
    (h : sep <+: l.drop i) : sep <:+: l := by
  obtain ⟨t, ht⟩ := h
  exact ⟨l.take i, t, by rw [List.append_assoc, ht, List.take_append_drop]⟩

theorem findSub_isSome_of_isInfix (sep l : List Char) (hsep : sep ≠ [])
    (h : sep <:+: l) : ∃ i, findSub sep l = some i := by
  cases hf : findSub sep l with
  | none =>
    obtain ⟨i, hp⟩ := occ_of_isInfix sep l h
    exact absurd hp (findSub_none_no_occ sep hsep l hf i)
  | some i => exact ⟨i, rfl⟩

theorem findSub_none_of_not_isInfix (sep l : List Char)
    (h : ¬ sep <:+: l) : findSub sep l = Option.none := by
  cases hf : findSub sep l with
  | none => rfl
  | some i =>
    exact absurd (isInfix_of_occ sep l i (findSub_some_starts sep l i hf)) h

theorem pySplit_ne_nil (sep l : List Char) : pySplit sep l ≠ [] := by
  unfold pySplit
  split
  · simp
  · cases l with
    | nil => simp [pySplitGo]
    | cons c rest =>
      show pySplitGo sep (rest.length + 1) (c :: rest) ≠ []
      simp only [pySplitGo]
      cases findSub sep (c :: rest) <;> simp

theorem pySplit_headD (sep : List Char) (hsep : sep ≠ []) (l : List Char) :
    (pySplit sep l).headD [] =
      match findSub sep l with
      | Option.none => l
      | some i => l.take i := by
  unfold pySplit
  rw [if_neg hsep]
  cases l with
  | nil =>
    simp [pySplitGo, findSub, hsep]
  | cons c rest =>
    show (pySplitGo sep (rest.length + 1) (c :: rest)).headD [] = _
    simp only [pySplitGo]
    cases findSub sep (c :: rest) <;> simp

theorem extractSummary_str (s : List Char) :
    extractSummary (.str s) =
      .ok (.str ((pySplit instMarker s).headD [])) := by
  unfold extractSummary pySplitVal
  cases hp : pySplit instMarker s with
  | nil => exact absurd hp (pySplit_ne_nil _ _)
  | cons a t => simp [pyIndex, Bind.bind, Except.bind, hp]

/-- Shared helper: when no stream of the resolved video carries the
requested bitrate, `youtube_to_audio` raises the `ValueError`. -/
theorem youtube_to_audio_no_match (streams : List AudioStream)
    (abr : List Char) (h : ∀ st ∈ streams, st.abr ≠ abr) :
    youtube_to_audio (.ok streams) abr =
      .error (.valueError (noStreamMsg abr)) := by
  have hf : streams.filter (fun s => s.abr = abr) = [] := by
    rw [List.filter_eq_nil_iff]
    intro a ha
    simpa using h a ha
  simp [youtube_to_audio, Bind.bind, Except.bind, hf]

/-! ## Claims -/

/-- C1: Summary extraction in both entry points splits the first pipeline
result string on the literal marker `"\n\n[INST]"` and takes element 0:
for every result string containing the marker, the extracted summary is
exactly the prefix before the first occurrence of the marker; for every
result string not containing the marker, the UI path displays the raw
result string unchanged (`st.success` of the unchanged string) and does
not throw. -/
theorem C1_summary_extraction (s : List Char) :
    (instMarker <:+: s →
       ∃ pre post, extractSummary (.str s) = .ok (.str pre) ∧
         s = pre ++ instMarker ++ post ∧
         ∀ j, j < pre.length → ¬ instMarker <+: s.drop j) ∧
    (¬ instMarker <:+: s →
       extractSummary (.str s) = .ok (.str s) ∧
       ∀ (w : UIWorld) (fp : List Char) (rest : List PyVal),
         download_audio w.resolve = (some fp, []) → fp ≠ [] →
         w.modelExists = true →
         w.runOut = .ok (.dict [(resultsKey, .list (.str s :: rest))]) →
         uiMain w = .ok [.stInfo, .stVideo, .stHeader,
                         .stSuccess (.str s), .stCaption]) := by
  have hm : instMarker ≠ [] := by decide
  constructor
  · intro hin
    obtain ⟨i, hf⟩ := findSub_isSome_of_isInfix instMarker s hm hin
    have hstart := findSub_some_starts instMarker s i hf
    have hlt := findSub_some_lt_length instMarker hm s i hf
    obtain ⟨t, ht⟩ := hstart
    refine ⟨s.take i, t, ?_, ?_, ?_⟩
    · rw [extractSummary_str, pySplit_headD instMarker hm s, hf]
    · calc s = s.take i ++ s.drop i := (List.take_append_drop i s).symm
        _ = s.take i ++ (instMarker ++ t) := by rw [← ht]
        _ = s.take i ++ instMarker ++ t := by rw [List.append_assoc]
    · intro j hj
      have hlen : (s.take i).length = i :=
        List.length_take_of_le (le_of_lt hlt)
      exact findSub_some_min instMarker s i hf j (by omega)
  · intro hnin
    have hf := findSub_none_of_not_isInfix instMarker s hnin
    have hid : extractSummary (.str s) = .ok (.str s) := by
      rw [extractSummary_str, pySplit_headD instMarker hm s, hf]
    refine ⟨hid, ?_⟩
    intro w fp rest hdl hfp hmx hrun
    have hse : uiSummaryEvs (.dict [(resultsKey, .list (.str s :: rest))]) =
        [.stSuccess (.str s)] := by
      simp [uiSummaryEvs, pySubscript, lookupKey, pyIndex,
            Bind.bind, Except.bind, hid]
    simp [uiMain, hdl, hfp, hmx, hrun, load_model, hse]

/-- Witness for C1, at the string `"OK summary\n\n[INST] tail"` (contains
the marker) and the string `"plain output"` (does not). -/
theorem C1_summary_extraction_witness :
    (∃ pre post,
       extractSummary (.str "OK summary\n\n[INST] tail".data) =
         .ok (.str pre) ∧
       "OK summary\n\n[INST] tail".data = pre ++ instMarker ++ post ∧
       ∀ j, j < pre.length →
         ¬ instMarker <+: "OK summary\n\n[INST] tail".data.drop j) ∧
    extractSummary (.str "plain output".data) =
      .ok (.str "plain output".data) := by
  exact ⟨(C1_summary_extraction _).1 (by decide),
         ((C1_summary_extraction _).2 (by decide)).1⟩

/-- C2: transcription strictly precedes summarization.  Both
`build_pipeline` (script) and `summarize_audio` (UI) run as the single
synchronous two-event trace in which the whisper node executes first on
the submitted file and the prompt node executes second, consuming exactly
the whisper node's output; no other order or interleaving occurs.  The
run semantics of the third-party Haystack framework is modelled from the
spec in `HPipeline.run`. -/
theorem C2_pipeline_order (tr : List Char → List Char)
    (sm : ModelConfig → List Char → List Char → List Char)
    (model_path : List Char) (max_length : Nat) (use_gpu : Bool)
    (file : List Char) (prompt_node : PromptNodeCfg) :
    (build_pipeline model_path max_length use_gpu).run tr sm file =
      [⟨"whisper".data, file, tr file⟩,
       ⟨"prompt".data, tr file,
        sm ⟨model_path, max_length, use_gpu⟩ SUMMARY_PROMPT (tr file)⟩] ∧
    summarize_audio tr sm file prompt_node =
      [⟨"whisper".data, file, tr file⟩,
       ⟨"prompt".data, tr file,
        sm prompt_node.model prompt_node.template (tr file)⟩] := by
  constructor <;> rfl

/-- C4: when the resolved streams of a URL contain no stream whose
bitrate matches the requested filter, `youtube_to_audio` raises
`ValueError(f"No audio stream with {abr} available.")` and returns no
file path. -/
theorem C4_no_stream_error (streams : List AudioStream) (abr : List Char)
    (h : ∀ st ∈ streams, st.abr ≠ abr) :
    youtube_to_audio (.ok streams) abr =
      .error (.valueError (noStreamMsg abr)) ∧
    ∀ p, youtube_to_audio (.ok streams) abr ≠ .ok p := by
  have he := youtube_to_audio_no_match streams abr h
  exact ⟨he, fun p hp => by rw [he] at hp; cases hp⟩

/-- Witness for C4: one stream at 128kbps, requested default 160kbps. -/
theorem C4_no_stream_error_witness :
    youtube_to_audio (.ok [⟨"128kbps".data, true, "a.mp4".data⟩])
        defaultAbr =
      .error (.valueError (noStreamMsg defaultAbr)) := by
  exact (C4_no_stream_error _ _ (by decide)).1

/-- C3: for every prompt, `LlamaCPPInvocationLayer.__call__` on an
adapter with maximum length `N` returns generated text of length at most
`N`.  The bound of the out-of-scope llama_cpp runtime is the
spec-modelled hypothesis `RespBounded`: each generation request is bounded
by its `max_tokens` argument, which `__call__` sets to the configured
maximum. -/
theorem C3_output_bounded (L : LlamaCPPInvocationLayer)
    (hbound : ∀ p n r, L.model p n = .ok r → RespBounded r n)
    (prompt : List Char) (s : List Char)
    (h : (L.call prompt).1 = .ok (.str s)) :
    s.length ≤ L.max_length := by
  unfold LlamaCPPInvocationLayer.call at h
  cases hm : L.model prompt L.max_length with
  | error e => rw [hm] at h; cases h
  | ok r =>
    rw [hm] at h
    have hr := hbound prompt L.max_length r hm
    cases r with
    | dict kvs =>
      simp only [pyGet, Bind.bind, Except.bind] at h
      cases hl : lookupKey choicesKey kvs with
      | none =>
        rw [hl] at h
        simp only [Option.getD, pyIndex, List.getElem?_cons_zero,
                   pyGet, lookupKey] at h
        cases h
        simp
      | some v =>
        rw [hl] at h
        simp only [Option.getD] at h
        cases v with
        | list cs =>
          cases cs with
          | nil => simp [pyIndex] at h
          | cons c0 rest =>
            simp only [pyIndex, List.getElem?_cons_zero] at h
            cases c0 with
            | dict ckvs =>
              simp only [pyGet] at h
              cases ht : lookupKey textKey ckvs with
              | none =>
                rw [ht] at h
                simp only [Option.getD] at h
                cases h
                simp
              | some tv =>
                rw [ht] at h
                simp only [Option.getD] at h
                cases tv with
                | str sv =>
                  have hs : sv = s := by
                    simpa using h
                  subst hs
                  exact hr kvs (.dict ckvs :: rest) ckvs sv rfl hl
                    (List.mem_cons_self _ _) ht
                | list _ => cases h
                | dict _ => cases h
                | none => cases h
                | int _ => cases h
            | str _ => simp [pyGet] at h
            | list _ => simp [pyGet] at h
            | none => simp [pyGet] at h
            | int _ => simp [pyGet] at h
        | str cs =>
          cases cs with
          | nil => simp [pyIndex] at h
          | cons c0 rest => simp [pyIndex, pyGet] at h
        | dict _ => simp [pyIndex] at h
        | none => simp [pyIndex] at h
        | int _ => simp [pyIndex] at h
    | str _ => simp [pyGet, Bind.bind, Except.bind] at h
    | list _ => simp [pyGet, Bind.bind, Except.bind] at h
    | none => simp [pyGet, Bind.bind, Except.bind] at h
    | int _ => simp [pyGet, Bind.bind, Except.bind] at h

/-- Witness for C3: a runtime that answers every request with `max_tokens`
copies of `'a'`, adapter configured with maximum length 5. -/
theorem C3_output_bounded_witness :
    (List.replicate 5 'a').length ≤ 5 := by
  refine C3_output_bounded
    ⟨fun _ n => .ok (.dict [(choicesKey,
        .list [.dict [(textKey, .str (List.replicate n 'a'))]])]), 5⟩
    ?_ "p".data (List.replicate 5 'a') rfl
  intro p n r hres
  cases hres
  intro kvs cs ckvs s hq hl hmem ht
  cases hq
  simp only [lookupKey, if_pos rfl] at hl
  cases hl
  simp only [List.mem_singleton] at hmem
  cases hmem
  simp only [lookupKey, if_pos rfl] at ht
  cases ht
  simp

/-- C6: `LlamaCPPInvocationLayer.__call__` issues exactly one generation
request per invocation — the recorded request list is the singleton
`(prompt, max_length)`, so there is no retry — and an exception raised by
the underlying runtime propagates uncaught through the adapter. -/
theorem C6_single_request (L : LlamaCPPInvocationLayer)
    (prompt : List Char) :
    (L.call prompt).2 = [(prompt, L.max_length)] ∧
    ∀ e, L.model prompt L.max_length = .error e →
      (L.call prompt).1 = .error e := by
  constructor
  · rfl
  · intro e he
    unfold LlamaCPPInvocationLayer.call
    rw [he]

/-- Witness for C6: a runtime that raises on generation. -/
theorem C6_single_request_witness :
    ((LlamaCPPInvocationLayer.mk
        (fun _ _ => .error (.runtimeError "boom".data)) 7).call
      "p".data).1 = .error (.runtimeError "boom".data) := by
  exact (C6_single_request _ _).2 _ rfl

/-- C10: `__call__` returns the empty string rather than raising when the
runtime's response dict has no `'choices'` key, and likewise when the
first choice is a dict with no `'text'` key. -/
theorem C10_missing_keys_empty (L : LlamaCPPInvocationLayer)
    (prompt : List Char) :
    (∀ kvs, L.model prompt L.max_length = .ok (.dict kvs) →
       lookupKey choicesKey kvs = Option.none →
       (L.call prompt).1 = .ok (.str [])) ∧
    (∀ kvs ckvs rest, L.model prompt L.max_length = .ok (.dict kvs) →
       lookupKey choicesKey kvs = some (.list (.dict ckvs :: rest)) →
       lookupKey textKey ckvs = Option.none →
       (L.call prompt).1 = .ok (.str [])) := by
  constructor
  · intro kvs hm hl
    unfold LlamaCPPInvocationLayer.call
    rw [hm]
    simp [pyGet, Bind.bind, Except.bind, hl, pyIndex, lookupKey]
  · intro kvs ckvs rest hm hl ht
    unfold LlamaCPPInvocationLayer.call
    rw [hm]
    simp [pyGet, Bind.bind, Except.bind, hl, pyIndex, ht]

/-- Witness for C10: a response with no `'choices'` key, and a response
whose first choice has no `'text'` key. -/
theorem C10_missing_keys_empty_witness :
    ((LlamaCPPInvocationLayer.mk (fun _ _ => .ok (.dict [])) 512).call
       "p".data).1 = .ok (.str []) ∧
    ((LlamaCPPInvocationLayer.mk
        (fun _ _ => .ok (.dict [(choicesKey, .list [.dict []])])) 512).call
       "p".data).1 = .ok (.str []) := by
  exact ⟨(C10_missing_keys_empty _ _).1 [] rfl rfl,
         (C10_missing_keys_empty _ _).2 [(choicesKey, .list [.dict []])]
           [] [] rfl (by simp [lookupKey]) rfl⟩

/-- Counterexample to C5: in the batch script, a missing model file is
NOT caught.  With a resolvable 160kbps stream, a model load that raises
`FileNotFoundError` (the file named by `MODEL_PATH` is absent), and any
pipeline outcome, `main` of summary.py ends with the exception
propagating out of it — `build_pipeline` is outside every `try` block —
contradicting the claim that taxonomy (b) is caught at the call site in
both entry points and never propagates. -/
theorem C5_counterexample :
    batchMain ⟨.ok [⟨defaultAbr, true, "audio.mp4".data⟩],
               .error .fileNotFound, .ok (.dict [])⟩ =
      .error .fileNotFound := by rfl

/-- C5 amended: a download failure is caught at the call site, reported,
and halts the flow in BOTH entry points; a missing model file is caught
and reported only in the UI entry point (`load_model`), while in the
batch script the model-load exception propagates uncaught out of `main`. -/
theorem C5_amended_error_handling :
    (∀ (w : BatchWorld) (e : PyErr), w.resolve = .error e →
       batchMain w = .ok [.printVal (.str (fetchFailMsg e))]) ∧
    (∀ (w : BatchWorld) (streams : List AudioStream),
       w.resolve = .ok streams →
       (∀ st ∈ streams, st.abr ≠ defaultAbr) →
       batchMain w = .ok [.printVal (.str (fetchFailMsg
           (.valueError (noStreamMsg defaultAbr))))]) ∧
    (∀ (w : UIWorld) (e : PyErr), w.resolve = .error e →
       uiMain w = .ok [.stInfo, .stError (dlErrMsg e)]) ∧
    (∀ (w : UIWorld) (fp : List Char), w.modelExists = false →
       download_audio w.resolve = (some fp, []) → fp ≠ [] →
       uiMain w = .ok [.stInfo, .stError (modelNotFoundMsg w.modelPath)]) ∧
    (∀ (w : BatchWorld) (p : List Char) (e : PyErr),
       youtube_to_audio w.resolve defaultAbr = .ok p →
       w.modelLoad = .error e → batchMain w = .error e) := by
  refine ⟨?_, ?_, ?_, ?_, ?_⟩
  · intro w e hre
    simp [batchMain, youtube_to_audio, hre, Bind.bind, Except.bind]
  · intro w streams hre hnone
    have := youtube_to_audio_no_match streams defaultAbr hnone
    simp only [batchMain, hre] at *
    rw [this]
  · intro w e hre
    simp [uiMain, download_audio, hre]
  · intro w fp hmx hdl hfp
    simp [uiMain, hdl, hfp, hmx, load_model]
  · intro w p e hdl hml
    unfold batchMain
    rw [hdl, hml]

/-- Witness for C5 amended: concrete worlds exercising each conjunct —
a failed resolution in both entry points, a bitrate mismatch in the batch
script, a missing model file in the UI, and a model-load exception in the
batch script. -/
theorem C5_amended_error_handling_witness :
    batchMain ⟨.error .keyError, .ok (), .ok (.dict [])⟩ =
      .ok [.printVal (.str (fetchFailMsg .keyError))] ∧
    batchMain ⟨.ok [⟨"128kbps".data, true, "a.mp4".data⟩], .ok (),
               .ok (.dict [])⟩ =
      .ok [.printVal (.str (fetchFailMsg
          (.valueError (noStreamMsg defaultAbr))))] ∧
    uiMain ⟨.error .keyError, true, "m.gguf".data, .ok (.dict [])⟩ =
      .ok [.stInfo, .stError (dlErrMsg .keyError)] ∧
    uiMain ⟨.ok [⟨"128kbps".data, true, "a.mp4".data⟩], false,
            "m.gguf".data, .ok (.dict [])⟩ =
      .ok [.stInfo, .stError (modelNotFoundMsg "m.gguf".data)] ∧
    batchMain ⟨.ok [⟨defaultAbr, true, "a.mp4".data⟩],
               .error (.runtimeError "load".data), .ok (.dict [])⟩ =
      .error (.runtimeError "load".data) := by
  refine ⟨C5_amended_error_handling.1 _ _ rfl,
          C5_amended_error_handling.2.1 _ _ rfl (by decide),
          C5_amended_error_handling.2.2.1 _ _ rfl,
          C5_amended_error_handling.2.2.2.1 _ ("audio_".data ++ "a.mp4".data)
            rfl (by rfl) (by decide),
          C5_amended_error_handling.2.2.2.2 _ "a.mp4".data _ (by rfl) rfl⟩

/-- C7: the batch script's summary extraction is not guarded by any
exception handler and can throw for some pipeline output — concretely,
a `"results"` entry whose first element is not a string makes `main` of
summary.py die with the `.split` `AttributeError` — whereas the UI path
never lets an extraction failure escape: for every pipeline output dict
the submit handler returns normally (falling back to the raw output). -/
theorem C7_unguarded_batch_extraction :
    batchMain ⟨.ok [⟨defaultAbr, true, "audio.mp4".data⟩], .ok (),
               .ok (.dict [(resultsKey, .list [.int 5])])⟩ =
      .error .attributeError ∧
    ∀ (w : UIWorld) (r : PyVal), w.runOut = .ok r →
      ∀ e, uiMain w ≠ .error e := by
  constructor
  · rfl
  · intro w r hr e hcontra
    rcases hdl : download_audio w.resolve with ⟨fp?, evs⟩
    rcases hlm : load_model w.modelExists w.modelPath with ⟨m?, evs2⟩
    cases fp? with
    | none => simp [uiMain, hdl] at hcontra
    | some fp =>
      by_cases hfp : fp = []
      · simp [uiMain, hdl, hfp] at hcontra
      · cases m? with
        | none => simp [uiMain, hdl, hfp, hlm] at hcontra
        | some m => simp [uiMain, hdl, hfp, hlm, hr] at hcontra

/-- Witness for C7's universally quantified conjunct, at a concrete UI
world whose pipeline produced an empty dict. -/
theorem C7_unguarded_batch_extraction_witness :
    uiMain ⟨.ok [⟨"128kbps".data, true, "a.mp4".data⟩], true,
            "m.gguf".data, .ok (.dict [])⟩ ≠ .error .typeError := by
  exact C7_unguarded_batch_extraction.2 _ _ rfl _

/-- Counterexample to C8: the batch script's `main` (summary.py) never
measures or reports elapsed time — a fully successful run produces only
the two `print` outputs, with no timing report among them. -/
theorem C8_counterexample :
    batchMain ⟨.ok [⟨defaultAbr, true, "audio.mp4".data⟩], .ok (),
               .ok (.dict [(resultsKey, .list [.str "hi".data])])⟩ =
      .ok [.printVal (.list [.str "hi".data]),
           .printVal (.str "hi".data)] ∧
    Ev.stCaption ∉
      ([.printVal (.list [.str "hi".data]),
        .printVal (.str "hi".data)] : List Ev) := by
  exact ⟨by rfl, by simp⟩

/-- C8 amended: only the UI orchestrator measures elapsed wall-clock time
and reports it — every submitted run that reaches the summary stage ends
with the `st.caption` elapsed-time report — while the batch script's
`main` reports no elapsed time on any run. -/
theorem C8_amended_timing :
    (∀ (w : UIWorld) (fp : List Char) (r : PyVal),
       download_audio w.resolve = (some fp, []) → fp ≠ [] →
       w.modelExists = true → w.runOut = .ok r →
       ∃ evs, uiMain w = .ok evs ∧ Ev.stCaption ∈ evs) ∧
    (∀ (w : BatchWorld) (evs : List Ev), batchMain w = .ok evs →
       Ev.stCaption ∉ evs) := by
  constructor
  · intro w fp r hdl hfp hmx hr
    refine ⟨[Ev.stInfo, .stVideo, .stHeader] ++ uiSummaryEvs r ++
            [Ev.stCaption], ?_, by simp⟩
    simp [uiMain, hdl, hfp, hmx, hr, load_model]
  · intro w evs h hmem
    unfold batchMain at h
    cases hy : youtube_to_audio w.resolve defaultAbr with
    | error e =>
      rw [hy] at h
      cases h
      simp at hmem
    | ok p =>
      rw [hy] at h
      cases hml : w.modelLoad with
      | error e => rw [hml] at h; cases h
      | ok u =>
        rw [hml] at h
        cases hro : w.runOut with
        | error e => rw [hro] at h; cases h
        | ok output =>
          rw [hro] at h
          cases output with
          | dict kvs =>
            by_cases htr :
                truthy ((lookupKey resultsKey kvs).getD (.list [])) = true
            · cases hx : pyIndex
                  ((lookupKey resultsKey kvs).getD (.list [])) 0 with
              | error e =>
                simp [pyGet, Bind.bind, Except.bind, htr, hx] at h
              | ok r0 =>
                cases hes : extractSummary r0 with
                | error e =>
                  simp [pyGet, Bind.bind, Except.bind, htr, hx, hes] at h
                | ok s0 =>
                  simp [pyGet, Bind.bind, Except.bind, htr, hx, hes,
                        Pure.pure, Except.pure] at h
                  subst h
                  simp at hmem
            · simp [pyGet, Bind.bind, Except.bind, htr,
                    Pure.pure, Except.pure] at h
              subst h
              simp at hmem
          | str _ => simp [pyGet, Bind.bind, Except.bind] at h
          | list _ => simp [pyGet, Bind.bind, Except.bind] at h
          | none => simp [pyGet, Bind.bind, Except.bind] at h
          | int _ => simp [pyGet, Bind.bind, Except.bind] at h

/-- Witness for C8 amended: a successful UI run reports the elapsed time,
a successful batch run does not. -/
theorem C8_amended_timing_witness :
    (∃ evs, uiMain ⟨.ok [⟨"128kbps".data, true, "a.mp4".data⟩], true,
                    "m.gguf".data, .ok (.dict [])⟩ = .ok evs ∧
       Ev.stCaption ∈ evs) ∧
    Ev.stCaption ∉
      ([.printVal (.str noResultsMsg)] : List Ev) := by
  refine ⟨C8_amended_timing.1 _ ("audio_".data ++ "a.mp4".data) _
            rfl (by decide) rfl rfl,
          C8_amended_timing.2 ⟨.ok [⟨defaultAbr, true, "a.mp4".data⟩],
              .ok (), .ok (.dict [])⟩ _ (by rfl)⟩

/-- C9: in the batch script's `main`, a pipeline output whose
`"results"` entry is missing or the empty list takes the guarded `else`
branch: the informative message is printed and the function returns with
no indexing into the results list (no `IndexError` is raised). -/
theorem C9_empty_results_safe (w : BatchWorld) (p : List Char)
    (kvs : List (List Char × PyVal))
    (hdl : youtube_to_audio w.resolve defaultAbr = .ok p)
    (hml : w.modelLoad = .ok ())
    (hrun : w.runOut = .ok (.dict kvs))
    (hres : lookupKey resultsKey kvs = Option.none ∨
            lookupKey resultsKey kvs = some (.list [])) :
    batchMain w = .ok [.printVal (.str noResultsMsg)] := by
  unfold batchMain
  rw [hdl, hml, hrun]
  rcases hres with h | h <;>
    simp [pyGet, Bind.bind, Except.bind, h, truthy, Pure.pure, Except.pure]

/-- Witness for C9: a successful run whose output dict lacks the
`"results"` key entirely. -/
theorem C9_empty_results_safe_witness :
    batchMain ⟨.ok [⟨defaultAbr, true, "a.mp4".data⟩], .ok (),
               .ok (.dict [])⟩ =
      .ok [.printVal (.str noResultsMsg)] := by
  exact C9_empty_results_safe _ "a.mp4".data [] (by rfl) rfl rfl
    (Or.inl rfl)

end YTSum
